import Mathlib

/-!
Verification of the `zorro.mysql` client core (src/zorro/mysql.py) against its
natural-language specification.  Byte buffers are modelled as `List Nat`
(each element one byte), positions as `Nat`.  Python behaviours that raise
exceptions (TypeError, UnboundLocalError, assertion failures, RuntimeError)
are modelled with `Except PyErr`.
-/

deriving instance DecidableEq for Except

/-- Python exceptions observable in the modelled code paths. -/
inductive PyErr
  | typeError
  | unboundLocal
  | structError
  | assertFail (msg : String)
  | runtimeError (typeCode : Nat)
deriving Repr, DecidableEq

/-- `buf[i]` for an in-range index; out-of-range reads (which raise
IndexError in Python) are given the junk value 0 — every theorem below only
evaluates in-range positions. -/
def byteAt (buf : List Nat) (i : Nat) : Nat := buf.getD i 0

/-- Python slice `buf[a:b]`. -/
def pySlice (buf : List Nat) (a b : Nat) : List Nat := (buf.drop a).take (b - a)

/-- `struct.unpack_from('<H', buf, p)`: little-endian 16-bit value. -/
def leU16 (buf : List Nat) (p : Nat) : Nat := byteAt buf p + byteAt buf (p+1) * 256

/-- `struct.unpack_from('<Q', buf, p)`: little-endian 64-bit value. -/
def leU64 (buf : List Nat) (p : Nat) : Nat :=
  byteAt buf p + byteAt buf (p+1) * 256 + byteAt buf (p+2) * 65536 +
  byteAt buf (p+3) * 16777216 + byteAt buf (p+4) * 4294967296 +
  byteAt buf (p+5) * 1099511627776 + byteAt buf (p+6) * 281474976710656 +
  byteAt buf (p+7) * 72057594037927936

/-- The value part of what `_read_lcb` returns.  Python's
`struct.unpack_from` returns a 1-tuple, not an integer, so the 252 and 254
branches of `_read_lcb` produce a tuple value; we record that shape
faithfully with the `tuple` constructor. -/
inductive LcbVal
  | int (n : Nat)
  | null
  | tuple (n : Nat)
deriving Repr, DecidableEq

/-- `_read_lcb(buf, pos)` (src/zorro/mysql.py lines 39-50).  Returns
`none` when the leading byte is 255: no branch matches and the Python
function implicitly returns `None` (instead of a `(value, pos)` pair). -/
def readLcb (buf : List Nat) (pos : Nat) : Option (LcbVal × Nat) :=
  let num := byteAt buf pos
  if num < 251 then some (.int num, pos+1)
  else if num = 251 then some (.null, pos+1)
  else if num = 252 then
    -- struct.unpack_from('<H', buf, pos+1) is the 1-tuple (u16,)
    some (.tuple (leU16 buf (pos+1)), pos+3)
  else if num = 253 then
    some (.int (byteAt buf (pos+1) + byteAt buf (pos+2) * 256 +
                byteAt buf (pos+3) * 65536), pos+4)
  else if num = 254 then
    -- struct.unpack_from('<Q', buf, pos+1) is the 1-tuple (u64,)
    some (.tuple (leU64 buf (pos+1)), pos+9)
  else none

/-- The length variable `num` inside `_read_lcbytes` / `_read_lcstr` after
the branch on the leading byte: an int, or the 1-tuple produced by
`struct.unpack_from`. -/
inductive PyLen
  | int (n : Nat)
  | tuple (n : Nat)
deriving Repr, DecidableEq

/-- `_read_lcbytes(buf, pos)` (src/zorro/mysql.py lines 52-68).  In the 252
and 254 branches `num` is re-bound to the 1-tuple returned by
`struct.unpack_from`; the final `return buf[pos:pos+num], pos+num` then
raises TypeError because a tuple cannot be added to an int.  A leading byte
of 255 matches no branch and falls through to the final return with
`num = 255`. -/
def readLcbytes (buf : List Nat) (pos : Nat) : Except PyErr (Option (List Nat) × Nat) :=
  let num := byteAt buf pos
  let pos1 := pos + 1
  if num < 251 then .ok (some (pySlice buf pos1 (pos1+num)), pos1+num)
  else if num = 251 then .ok (none, pos1)
  else
    let lenPos : PyLen × Nat :=
      if num = 252 then (.tuple (leU16 buf pos1), pos1+2)
      else if num = 253 then
        (.int (byteAt buf pos1 + byteAt buf (pos1+1) * 256 +
               byteAt buf (pos1+2) * 65536), pos1+3)
      else if num = 254 then (.tuple (leU64 buf pos1), pos1+8)
      else (.int num, pos1)
    match lenPos with
    | (.int n, p) => .ok (some (pySlice buf p (p+n)), p+n)
    | (.tuple _, _) => .error .typeError

/-- C1: the claim states that a length-coded integer with leading byte 252
decodes to the little-endian u16 *integer* of the following two bytes, and
254 to the u64 integer of the following eight bytes.  The code instead
returns the 1-tuple produced by `struct.unpack_from` in both branches, and
`_read_lcbytes` consequently raises TypeError when it uses that tuple as a
length.  The 1-byte, NULL and 3-byte branches behave as claimed. -/
theorem lcb_decode_returns_tuple_not_int :
    readLcb [252, 1, 0] 0 = some (.tuple 1, 3) ∧
    readLcb [254, 2, 0, 0, 0, 0, 0, 0, 0] 0 = some (.tuple 2, 9) ∧
    readLcbytes [252, 2, 0, 65, 66] 0 = .error .typeError ∧
    readLcbytes [254, 1, 0, 0, 0, 0, 0, 0, 0, 65] 0 = .error .typeError ∧
    readLcb [7] 0 = some (.int 7, 1) ∧
    readLcb [251] 0 = some (.null, 1) ∧
    readLcb [253, 1, 2, 3] 0 = some (.int 197121, 4) ∧
    readLcbytes [2, 65, 66, 67] 0 = .ok (some [65, 66], 3) ∧
    readLcbytes [253, 1, 0, 0, 65, 66] 0 = .ok (some [65], 5) := by
  decide

/-!
## Packet framer (`Channel.receiver`, src/zorro/mysql.py lines 304-353)

The receiver's inner loop `while len(buf)-pos >= 4:` is modelled as a step
function on the loop state plus a fuel-indexed runner.  `produce` is
modelled by appending the emitted reply to `produced`.
-/

/-- The local state of `Channel.receiver`'s frame-processing loop. -/
structure RecvState where
  buf : List Nat
  pos : Nat
  current : List (List Nat)
  fields : Bool
  handshake : Nat
  produced : List (List (List Nat))
deriving Repr, DecidableEq

/-- One outcome of executing the inner loop's test-plus-body once. -/
inductive StepRes
  | exit (s : RecvState)
  | cont (s : RecvState)
  | fail (msg : String)
deriving Repr, DecidableEq

/-- `length = buf[pos] + (buf[pos+1] << 8) + (buf[pos+2] << 16)` (line 331). -/
def pktLength (s : RecvState) : Nat :=
  byteAt s.buf s.pos + byteAt s.buf (s.pos+1) * 256 + byteAt s.buf (s.pos+2) * 65536

/-- One iteration of `while len(buf)-pos >= 4:` (lines 330-353).  When fewer
than `length+4` bytes are buffered the body executes `continue`, which
re-enters the same `while` with the state unchanged (`.cont s`).  In the
handshake phase (`handshake < 2`) `ptype` is forced to 0, so the packet is
produced immediately as a reply of its own and no sequence-number assertion
runs; afterwards `assert num == len(current)` failing is `.fail`. -/
def frameStep (s : RecvState) : StepRes :=
  if s.buf.length - s.pos < 4 then .exit s
  else if s.buf.length - s.pos < pktLength s + 4 then .cont s
  else
    let num := byteAt s.buf (s.pos+3)
    let ptype := byteAt s.buf (s.pos+4)
    let current := s.current ++ [pySlice s.buf (s.pos+4) (s.pos + pktLength s + 4)]
    if s.handshake < 2 then
      -- ptype = 0; handshake += 1; then the `ptype in (0, 0xff)` branch produces
      .cont { s with pos := s.pos + pktLength s + 4, current := [],
                     fields := false, handshake := s.handshake + 1,
                     produced := s.produced ++ [current] }
    else if num ≠ current.length then .fail "assert num == len(current)"
    else if ptype = 0 ∨ ptype = 255 then
      .cont { s with pos := s.pos + pktLength s + 4, current := [],
                     fields := false, produced := s.produced ++ [current] }
    else if ptype = 254 then
      if s.fields then
        .cont { s with pos := s.pos + pktLength s + 4, current := [],
                       fields := false, produced := s.produced ++ [current] }
      else
        .cont { s with pos := s.pos + pktLength s + 4, current := current,
                       fields := true }
    else
      .cont { s with pos := s.pos + pktLength s + 4, current := current }

/-- Result of running the inner loop with a given amount of fuel. -/
inductive RunRes
  | done (s : RecvState)
  | failed (msg : String)
  | fuelOut
deriving Repr, DecidableEq

/-- Run the frame-processing loop until it exits, fails, or fuel runs out. -/
def runFrames : Nat → RecvState → RunRes
  | 0, _ => .fuelOut
  | n+1, s =>
    match frameStep s with
    | .exit s' => .done s'
    | .fail m => .failed m
    | .cont s' => runFrames n s'

/-- C2: with at least 4 bytes buffered but fewer than `length+4`, the loop
body hits `continue`, which re-enters the *inner* `while` with the state
unchanged, so the loop never terminates: for every amount of fuel the runner
runs out instead of exiting back to `wait_read`.  The claim (and the spec)
say the loop terminates and waits for more input. -/
theorem receiver_spins_on_incomplete_packet (s : RecvState)
    (h4 : 4 ≤ s.buf.length - s.pos)
    (hlt : s.buf.length - s.pos < pktLength s + 4) :
    ∀ fuel, runFrames fuel s = RunRes.fuelOut := by
  have hstep : frameStep s = .cont s := by
    unfold frameStep
    rw [if_neg (by omega), if_pos hlt]
  intro fuel
  induction fuel with
  | zero => rfl
  | succ n ih => simp [runFrames, hstep, ih]

/-- C2 witness: a concrete stuck state — header announces a 5-byte payload
but only 2 payload bytes are buffered. -/
theorem receiver_spins_on_incomplete_packet_witness :
    (4 ≤ ([5, 0, 0, 0, 1, 2] : List Nat).length - 0 ∧
     ([5, 0, 0, 0, 1, 2] : List Nat).length - 0
       < pktLength ⟨[5, 0, 0, 0, 1, 2], 0, [], false, 2, []⟩ + 4) ∧
    runFrames 100 ⟨[5, 0, 0, 0, 1, 2], 0, [], false, 2, []⟩ = RunRes.fuelOut :=
  ⟨⟨by decide, by decide⟩,
   receiver_spins_on_incomplete_packet ⟨[5, 0, 0, 0, 1, 2], 0, [], false, 2, []⟩
     (by decide) (by decide) 100⟩

/-- C7 counterexample: a freshly opened connection (handshake counter 0)
with two complete packets buffered (payloads `[10]` and `[7]`).  The loop
produces *two* replies, one per packet, not a single reply holding both as
the claim states. -/
theorem handshake_packets_two_replies :
    runFrames 3 ⟨[1, 0, 0, 0, 10, 1, 0, 0, 1, 7], 0, [], false, 0, []⟩ =
      RunRes.done ⟨[1, 0, 0, 0, 10, 1, 0, 0, 1, 7], 10, [], false, 2,
                   [[[10]], [[7]]]⟩ := by
  decide

/-- C7 amended: each of the first two packets (handshake counter below 2)
bypasses the sequence-number assertion and is emitted immediately as a
single-packet reply of its own, incrementing the handshake counter; every
later complete packet (handshake counter at least 2) is subject to the
sequence-number assertion, which fails the receiver when the sequence byte
does not match the accumulated packet count. -/
theorem handshake_bypass_and_later_validation :
    (∀ s : RecvState, s.handshake < 2 → s.current = [] →
      4 ≤ s.buf.length - s.pos → pktLength s + 4 ≤ s.buf.length - s.pos →
      frameStep s = .cont { s with pos := s.pos + pktLength s + 4,
                                   current := [], fields := false,
                                   handshake := s.handshake + 1,
                                   produced := s.produced ++
                                     [[pySlice s.buf (s.pos+4) (s.pos + pktLength s + 4)]] }) ∧
    (∀ s : RecvState, 2 ≤ s.handshake →
      4 ≤ s.buf.length - s.pos → pktLength s + 4 ≤ s.buf.length - s.pos →
      byteAt s.buf (s.pos+3) ≠ s.current.length + 1 →
      frameStep s = .fail "assert num == len(current)") := by
  constructor
  · intro s h2 hcur h4 hfit
    unfold frameStep
    rw [if_neg (by omega), if_neg (by omega), if_pos h2, hcur]
    simp
  · intro s h2 h4 hfit hnum
    unfold frameStep
    rw [if_neg (by omega), if_neg (by omega), if_neg (by omega),
        if_pos (by simpa using hnum)]

/-- C7 witness: the amended theorem applied at concrete states — a fresh
connection receiving a complete 1-byte packet, and a post-handshake state
receiving a packet whose sequence byte is wrong. -/
theorem handshake_bypass_and_later_validation_witness :
    ((0 < 2 ∧ 4 ≤ ([1, 0, 0, 0, 9] : List Nat).length - 0) ∧
     frameStep ⟨[1, 0, 0, 0, 9], 0, [], false, 0, []⟩ =
       .cont ⟨[1, 0, 0, 0, 9], 5, [], false, 1, [[[9]]]⟩) ∧
    frameStep ⟨[1, 0, 0, 0, 9], 0, [], false, 2, []⟩ =
      .fail "assert num == len(current)" :=
  ⟨⟨⟨by decide, by decide⟩,
    handshake_bypass_and_later_validation.1 ⟨[1, 0, 0, 0, 9], 0, [], false, 0, []⟩
      (by decide) rfl (by decide) (by decide)⟩,
   handshake_bypass_and_later_validation.2 ⟨[1, 0, 0, 0, 9], 0, [], false, 2, []⟩
     (by decide) (by decide) (by decide) (by decide)⟩

/-!
## Transport selection (`Channel.__init__`, src/zorro/mysql.py lines 209-221)
-/

/-- The transport a Channel would own. -/
inductive Transport
  | unixSock (path : String)
  | tcp (host : String) (port : Nat)
deriving Repr, DecidableEq

/-- `Channel.__init__(self, host, port, unixsock)`.  The local variable
`sock` is modelled as `Option Transport` where `none` means *unbound*: it
is only assigned inside `if host == 'localhost': if os.path.exists(unixsock):`.
The subsequent `if sock is None:` statement reads `sock`, which raises
UnboundLocalError whenever the unix branch was not taken, so the TCP
fallback `socket.socket(AF_INET, ...)` is unreachable.  Filesystem
existence of `unixsock` enters as the boolean `unixsockExists`. -/
def channelInit (host : String) (port : Nat) (unixsock : String)
    (unixsockExists : Bool) : Except PyErr Transport :=
  let sock : Option Transport :=
    if host = "localhost" ∧ unixsockExists then some (.unixSock unixsock) else none
  match sock with
  | none => .error .unboundLocal
  | some s =>
    -- `sock is None` is False here, so the TCP branch `sock = socket.socket(
    -- AF_INET, SOCK_STREAM, IPPROTO_TCP); addr = (host, port)` is skipped.
    .ok s

/-- C3: the claim says construction always succeeds and falls back to a TCP
socket connected to `(host, port)` when the unix-socket path is not chosen;
in fact `sock` is never initialized before `if sock is None:`, so any host
other than `'localhost'` (and `'localhost'` without an existing socket
file) raises UnboundLocalError.  Only the unix-socket path succeeds. -/
theorem channel_init_unbound_sock :
    channelInit "example.com" 3306 "/var/run/mysqld/mysqld.sock" true =
      .error .unboundLocal ∧
    channelInit "example.com" 3306 "/var/run/mysqld/mysqld.sock" false =
      .error .unboundLocal ∧
    channelInit "localhost" 3306 "/var/run/mysqld/mysqld.sock" false =
      .error .unboundLocal ∧
    channelInit "localhost" 3306 "/var/run/mysqld/mysqld.sock" true =
      .ok (.unixSock "/var/run/mysqld/mysqld.sock") := by
  decide

/-!
## Client auth packet (`Channel._connect`, src/zorro/mysql.py lines 255-276)
-/

/-- `struct.pack('<L', v)`: four little-endian bytes. -/
def le32 (v : Nat) : List Nat :=
  [v % 256, v / 256 % 256, v / 65536 % 256, v / 16777216 % 256]

/-- Composition of the client auth packet, from the four-byte header
placeholder `b'\x00\x00\x00\x01'` through the final length patch.  SHA-1 is
passed in as a function parameter (`digests` of 20 bytes); the statement
below does not depend on it because composition aborts first.  With a
non-empty password the source executes `buf += '\x14'`, which adds a *str*
to a bytearray and raises TypeError, so the token lines after it
(`hash1 = sha1(password); hash2 = sha1(scramble + sha1(hash1));
buf += bytes(a^b ...)`) are unreachable. -/
def composeAuthPacket (sha1 : List Nat → List Nat) (user password database : List Nat)
    (scramble : List Nat) (caps : Nat) : Except PyErr (List Nat) :=
  let buf := [0, 0, 0, 1]
  -- struct.pack('<L4sB23s', caps & 0xFFFF, b'\x8f\xff\xff\xff', 33, b'\x00'*23)
  let buf := buf ++ le32 (caps % 65536) ++ [143, 255, 255, 255] ++ [33] ++
             List.replicate 23 0
  let buf := buf ++ user ++ [0]
  if password ≠ [] then
    -- buf += '\x14'  — str appended to bytearray: TypeError
    .error .typeError
  else
    let buf := buf ++ [0]
    let buf := buf ++ database ++ [0]
    let ln := buf.length - 4
    let buf := ((buf.set 0 (ln % 256)).set 1 (ln / 256 % 256)).set 2 (ln / 65536 % 256)
    -- the sha1 and scramble parameters would only be used on the dead branch
    let _ := sha1 scramble
    .ok buf

/-- C4: the claim says that for every non-empty password composing the auth
packet succeeds and embeds the XOR token; in fact `buf += '\x14'` raises
TypeError for every non-empty password, before any hash is computed, so the
packet is never composed.  (The empty-password path does succeed with the
single zero length byte.) -/
theorem auth_packet_compose_type_error
    (sha1 : List Nat → List Nat) (user password database scramble : List Nat)
    (caps : Nat) (hpw : password ≠ []) :
    composeAuthPacket sha1 user password database scramble caps =
      .error .typeError := by
  unfold composeAuthPacket
  rw [if_pos hpw]

/-- C4 witness: password "secret" (bytes) with an 8-byte scramble seed. -/
theorem auth_packet_compose_type_error_witness :
    ([115, 101, 99, 114, 101, 116] : List Nat) ≠ [] ∧
    composeAuthPacket (fun _ => List.replicate 20 0) [114, 111, 111, 116]
      [115, 101, 99, 114, 101, 116] [116, 101, 115, 116]
      [1, 2, 3, 4, 5, 6, 7, 8] 63495 = .error .typeError :=
  ⟨by decide,
   auth_packet_compose_type_error (fun _ => List.replicate 20 0)
     [114, 111, 111, 116] [115, 101, 99, 114, 101, 116] [116, 101, 115, 116]
     [1, 2, 3, 4, 5, 6, 7, 8] 63495 (by decide)⟩

/-!
## Capabilities (src/zorro/mysql.py lines 162-202) and handshake capability
negotiation (`Channel._connect`, lines 246-254)
-/

/-- The seventeen capability flags stored by `Capabilities.__init__`. -/
structure Capabilities where
  long_password : Bool
  found_rows : Bool
  long_flag : Bool
  connect_with_db : Bool
  no_schema : Bool
  compress : Bool
  odbc : Bool
  local_files : Bool
  ignore_space : Bool
  protocol_41 : Bool
  interactive : Bool
  ssl : Bool
  ignore_sigpipe : Bool
  transactions : Bool
  secure_connection : Bool
  multi_statements : Bool
  multi_results : Bool
deriving Repr, DecidableEq

/-- `Capabilities.__init__(self, num)` (lines 164-181). -/
def Capabilities.ofNum (num : Nat) : Capabilities where
  long_password := num &&& 1 != 0
  found_rows := num &&& 2 != 0
  long_flag := num &&& 4 != 0
  connect_with_db := num &&& 8 != 0
  no_schema := num &&& 16 != 0
  compress := num &&& 32 != 0
  odbc := num &&& 64 != 0
  local_files := num &&& 128 != 0
  ignore_space := num &&& 256 != 0
  protocol_41 := num &&& 512 != 0
  interactive := num &&& 1024 != 0
  ssl := num &&& 2048 != 0
  ignore_sigpipe := num &&& 4096 != 0
  transactions := num &&& 8192 != 0
  secure_connection := num &&& 32768 != 0
  multi_statements := num &&& 65536 != 0
  multi_results := num &&& 131072 != 0

/-- `Capabilities.to_int(self)` (lines 183-202). -/
def Capabilities.to_int (c : Capabilities) : Nat :=
  let num := 0
  let num := if c.long_password then num ||| 1 else num
  let num := if c.found_rows then num ||| 2 else num
  let num := if c.long_flag then num ||| 4 else num
  let num := if c.connect_with_db then num ||| 8 else num
  let num := if c.no_schema then num ||| 16 else num
  let num := if c.compress then num ||| 32 else num
  let num := if c.odbc then num ||| 64 else num
  let num := if c.local_files then num ||| 128 else num
  let num := if c.ignore_space then num ||| 256 else num
  let num := if c.protocol_41 then num ||| 512 else num
  let num := if c.interactive then num ||| 1024 else num
  let num := if c.ssl then num ||| 2048 else num
  let num := if c.ignore_sigpipe then num ||| 4096 else num
  let num := if c.transactions then num ||| 8192 else num
  let num := if c.secure_connection then num ||| 32768 else num
  let num := if c.multi_statements then num ||| 65536 else num
  let num := if c.multi_results then num ||| 131072 else num
  num

/-- Capability negotiation in `Channel._connect` (lines 246-254):
`Capabilities((caphigh << 16) + caplow)`, the two protocol assertions, then
the six clearing assignments.  The source line
`self.capabilities.multi_statement = False` misspells the attribute (the
field set by `__init__` is `multi_statements`), so it creates an unrelated
attribute and leaves `multi_statements` untouched; the model therefore
clears only the five correctly named flags. -/
def negotiateCaps (caphigh caplow : Nat) : Except PyErr Capabilities :=
  let c := Capabilities.ofNum (caphigh * 65536 + caplow)
  if c.protocol_41 = false then .error (.assertFail "Old protocol is not supported")
  else if c.connect_with_db = false then .error (.assertFail "connect_with_db")
  else .ok { c with odbc := false, compress := false,
                    multi_results := false, ssl := false, transactions := false }

/-- C5: the claim says all six of compression, SSL, multi-statement,
multi-result, ODBC and transaction flags are cleared after the handshake.
With the server offering multi-statements (bit 16: caphigh 1, caplow
8+512 = 520, i.e. capability integer 66056) the negotiated set still has
`multi_statements = true` — the clearing assignment targets a misspelled
attribute — and `to_int` reproduces 66056 with bit 16 still set.  The other
five flags are indeed cleared (checked with caphigh 3, caplow 10856, i.e.
capability integer 207464, which offers all six). -/
theorem negotiate_leaves_multi_statements_set :
    negotiateCaps 1 520 = .ok (Capabilities.ofNum 66056) ∧
    (Capabilities.ofNum 66056).multi_statements = true ∧
    Capabilities.to_int (Capabilities.ofNum 66056) = 66056 ∧
    (negotiateCaps 3 10856).map
        (fun c => (c.compress, c.ssl, c.multi_statements, c.multi_results,
                   c.odbc, c.transactions)) =
      .ok (false, false, true, false, false, false) := by
  decide

/-!
## Authentication reply check (src/zorro/mysql.py lines 14 and 277-278)
-/

/-- `OK_PACKET = (bytearray(b'\x00\x00\x00\x02\x00\x00\x00'),)` (line 14):
a reply (tuple of packets) holding one payload. -/
def OK_PACKET : List (List Nat) := [[0, 0, 0, 2, 0, 0, 0]]

/-- `assert value == OK_PACKET` (line 278): authentication succeeds exactly
when the reply to the client auth packet equals `OK_PACKET`. -/
def authReplyAccepted (reply : List (List Nat)) : Bool := reply == OK_PACKET

/-- The canonical OK payload written out from its fields, following the
spec's words: a zero status byte, affected-row count and insert id as
single-byte length-coded integers (values below 251), then two little-endian
u16 fields, status flags and warning count. -/
def specOkPayload (status affected insertId statusFlags warnings : Nat) : List Nat :=
  [status, affected, insertId, statusFlags % 256, statusFlags / 256 % 256,
   warnings % 256, warnings / 256 % 256]

/-- C6 counterexample: the claim's canonical OK packet has `status_flags=0`,
but the code's `OK_PACKET` constant carries status-flag bytes `\x02\x00`
(value 2, the autocommit flag), so a reply with all-zero status flags is
rejected while the flags-2 reply is accepted. -/
theorem auth_ok_check_rejects_zero_status_flags :
    authReplyAccepted [specOkPayload 0 0 0 0 0] = false ∧
    authReplyAccepted [specOkPayload 0 0 0 2 0] = true := by
  decide

/-- C6 amended: handshake authentication succeeds if and only if the reply
equals the canonical OK packet with status 0, affected 0, insert id 0,
status flags 2 and warnings 0; every other reply fails the assertion. -/
theorem auth_ok_check_iff_status_flags_two (reply : List (List Nat)) :
    authReplyAccepted reply = true ↔ reply = [specOkPayload 0 0 0 2 0] := by
  unfold authReplyAccepted OK_PACKET specOkPayload
  simp

/-!
## Client command orchestration (`Mysql.execute` / `Mysql.query`,
src/zorro/mysql.py lines 381-420)
-/

/-- Interactions with the channel observable from `execute` / `query`. -/
inductive MEvent
  | request (buf : List Nat)
deriving Repr, DecidableEq

/-- The command packet built by both `execute` and `query`: header
placeholder `b'\x00\x00\x00\x00'`, command byte `0x03`, the statement
bytes, then the 3-byte little-endian length patched into the header. -/
def mkCommandBuf (query : List Nat) : List Nat :=
  let buf := [0, 0, 0, 0] ++ [3] ++ query
  let ln := buf.length - 4
  ((buf.set 0 (ln % 256)).set 1 (ln / 256 % 256)).set 2 (ln / 65536 % 256)

/-- `ExecuteResult(insert_id, affected_rows)` (line 159). -/
structure ExecuteResult where
  insert_id : LcbVal
  affected_rows : LcbVal
deriving Repr, DecidableEq

/-- The checks and decoding `Mysql.execute` performs on the reply it
received (lines 391-401): the reply must be a single packet, whose first
byte is 0; then affected rows and insert id are read as length-coded
integers and `struct.unpack_from('<HH', ...)` reads status and warning
count (modelled only for its bounds check — `warnings.warn` is a non-fatal
signal and does not change the result). -/
def executeDecode (reply : List (List Nat)) : Except PyErr ExecuteResult :=
  if reply.length ≠ 1 then
    .error (.assertFail "Use query for queries that return result set")
  else
    let r := reply.headD []
    if byteAt r 0 ≠ 0 then .error (.assertFail "reply[0] == 0")
    else
      match readLcb r 1 with
      | none => .error .typeError
      | some (affected_rows, pos) =>
        match readLcb r pos with
        | none => .error .typeError
        | some (insert_id, pos2) =>
          if r.length < pos2 + 4 then .error .structError
          else .ok ⟨insert_id, affected_rows⟩

/-- `Mysql.execute(query)` (lines 381-401): the command packet is submitted
with `chan.request(buf)` and its reply awaited with `.get()` *before* any
shape check runs, so the request event is always part of the trace. -/
def mysqlExecute (reply : List (List Nat)) (query : List Nat) :
    List MEvent × Except PyErr ExecuteResult :=
  ([.request (mkCommandBuf query)], executeDecode reply)

/-- The data `Mysql.query` packages into a `Resultset` (lines 415-420). -/
structure ResultsetInfo where
  nfields : LcbVal
  extra : LcbVal
  reply : List (List Nat)
deriving Repr, DecidableEq

/-- The checks and decoding `Mysql.query` performs on the reply it received
(lines 413-420): the first packet's first byte must not be 0, 0xFF or 0xFE;
then the column count and the optional extra value are read as length-coded
integers. -/
def queryDecode (reply : List (List Nat)) : Except PyErr ResultsetInfo :=
  let r0 := reply.headD []
  if byteAt r0 0 = 0 ∨ byteAt r0 0 = 255 ∨ byteAt r0 0 = 254 then
    .error (.assertFail "Use execute for statements that does not return a result set")
  else
    match readLcb r0 0 with
    | none => .error .typeError
    | some (nfields, pos) =>
      if pos < r0.length then
        match readLcb r0 pos with
        | none => .error .typeError
        | some (extra, _) => .ok ⟨nfields, extra, reply⟩
      else .ok ⟨nfields, .int 0, reply⟩

/-- `Mysql.query(query)` (lines 403-420): like `execute`, the request is
sent and its reply awaited before the shape check runs. -/
def mysqlQuery (reply : List (List Nat)) (query : List Nat) :
    List MEvent × Except PyErr ResultsetInfo :=
  ([.request (mkCommandBuf query)], queryDecode reply)

/-- C8 counterexample: `execute` of the one-byte statement `S` against a
resultset-shaped reply (header, one field packet, EOF, one row, EOF), and
`query` of the same statement against an OK-shaped reply.  Both raise the
usage error, but in both cases the trace already contains the sent command
packet — the claim says the error is raised before any network interaction
and that no request is consumed. -/
theorem execute_usage_error_after_request_sent :
    (mysqlExecute [[1], [3, 100, 101, 102], [254], [1, 65], [254]] [83]).2 =
      .error (.assertFail "Use query for queries that return result set") ∧
    (mysqlExecute [[1], [3, 100, 101, 102], [254], [1, 65], [254]] [83]).1 =
      [.request [2, 0, 0, 0, 3, 83]] ∧
    (mysqlQuery [[0, 0, 0, 2, 0, 0, 0]] [83]).2 =
      .error (.assertFail "Use execute for statements that does not return a result set") ∧
    (mysqlQuery [[0, 0, 0, 2, 0, 0, 0]] [83]).1 =
      [.request [2, 0, 0, 0, 3, 83]] := by
  decide

/-- C8 amended: a usage error (`execute` on a statement returning rows,
`query` on one that does not) is raised only once the reply has arrived:
the command packet has already been sent and its reply consumed — the trace
of either call always contains exactly the one sent request — and upon
detection the error is raised without decoding the reply further. -/
theorem usage_error_after_reply (reply : List (List Nat)) (q : List Nat) :
    (mysqlExecute reply q).1 = [.request (mkCommandBuf q)] ∧
    (mysqlQuery reply q).1 = [.request (mkCommandBuf q)] ∧
    (reply.length ≠ 1 →
      (mysqlExecute reply q).2 =
        .error (.assertFail "Use query for queries that return result set")) ∧
    (byteAt (reply.headD []) 0 = 0 ∨ byteAt (reply.headD []) 0 = 255 ∨
        byteAt (reply.headD []) 0 = 254 →
      (mysqlQuery reply q).2 =
        .error (.assertFail "Use execute for statements that does not return a result set")) := by
  refine ⟨rfl, rfl, ?_, ?_⟩
  · intro h
    simp only [mysqlExecute, executeDecode]
    rw [if_pos h]
  · intro h
    simp only [mysqlQuery, queryDecode]
    rw [if_pos h]

/-- C8 witness: the amended theorem applied to the counterexample inputs. -/
theorem usage_error_after_reply_witness :
    (([[1], [3, 100, 101, 102], [254], [1, 65], [254]] : List (List Nat)).length ≠ 1 ∧
     byteAt (([[0, 0, 0, 2, 0, 0, 0]] : List (List Nat)).headD []) 0 = 0) ∧
    (mysqlExecute [[1], [3, 100, 101, 102], [254], [1, 65], [254]] [84]).2 =
      .error (.assertFail "Use query for queries that return result set") ∧
    (mysqlQuery [[0, 0, 0, 2, 0, 0, 0]] [84]).2 =
      .error (.assertFail "Use execute for statements that does not return a result set") :=
  ⟨⟨by decide, by decide⟩,
   (usage_error_after_reply [[1], [3, 100, 101, 102], [254], [1, 65], [254]] [84]).2.2.1
     (by decide),
   (usage_error_after_reply [[0, 0, 0, 2, 0, 0, 0]] [84]).2.2.2 (Or.inl (by decide))⟩

/-!
## Field / Resultset row decoding (src/zorro/mysql.py lines 16-36 and
125-156)
-/

/-- The `_Field` namedtuple (lines 100-101).  Text fields are kept as raw
byte lists; `default` is the optional trailing default.  Only `name` and
`type` are read by row decoding. -/
structure FieldDesc where
  catalog : List Nat
  db : List Nat
  table : List Nat
  org_table : List Nat
  name : List Nat
  org_name : List Nat
  charsetnr : Nat
  length : Nat
  type : Nat
  flags : Nat
  decimals : Nat
  default : Option (List Nat)
deriving Repr, DecidableEq

/-- The conversion functions stored in `FIELD_MAPPING`.  `decimalConv` is
`Decimal`, `intConv` is `int`, `floatConv` is `float`, `noneConv` is
`lambda a: None`, `strConv` is `lambda a: str(a, 'utf-8')`, `bytesConv` is
`bytes`, `setConv` is `lambda a: set(s.decode('utf-8').split(','))`. -/
inductive Conv
  | decimalConv
  | intConv
  | floatConv
  | noneConv
  | strConv
  | bytesConv
  | setConv
deriving Repr, DecidableEq

/-- `FIELD_MAPPING` (lines 16-36): the closed dispatch table from column
type code to conversion; `.get` yields `none` outside the table. -/
def FIELD_MAPPING (t : Nat) : Option Conv :=
  if t = 0x00 then some .decimalConv
  else if t = 0x01 then some .intConv
  else if t = 0x02 then some .intConv
  else if t = 0x03 then some .intConv
  else if t = 0x04 then some .floatConv
  else if t = 0x05 then some .floatConv
  else if t = 0x06 then some .noneConv
  else if t = 0x09 then some .intConv
  else if t = 0x0d then some .intConv
  else if t = 0x0f then some .strConv
  else if t = 0xf6 then some .decimalConv
  else if t = 0xf7 then some .strConv
  else if t = 0xf8 then some .setConv
  else if t = 0xf9 then some .bytesConv
  else if t = 0xfa then some .bytesConv
  else if t = 0xfb then some .bytesConv
  else if t = 0xfc then some .bytesConv
  else if t = 0xfd then some .strConv
  else if t = 0xfe then some .strConv
  else none

/-- A decoded column value: the tag records which conversion ran, the
payload the raw column bytes it was applied to (`none` for a NULL column).
The numeric/text parsing done inside the Python builtins is not itself
modelled — no claim depends on it — but which converter runs, and that an
unknown type code runs none, is. -/
inductive Value
  | decimalVal (raw : Option (List Nat))
  | intVal (raw : Option (List Nat))
  | floatVal (raw : Option (List Nat))
  | noneVal
  | strVal (raw : Option (List Nat))
  | bytesVal (raw : Option (List Nat))
  | setVal (raw : Option (List Nat))
deriving Repr, DecidableEq

/-- Apply a conversion from the dispatch table to a raw column. -/
def applyConv : Conv → Option (List Nat) → Value
  | .decimalConv, col => .decimalVal col
  | .intConv, col => .intVal col
  | .floatConv, col => .floatVal col
  | .noneConv, _ => .noneVal
  | .strConv, col => .strVal col
  | .bytesConv, col => .bytesVal col
  | .setConv, col => .setVal col

/-- The per-row loop of `Resultset.__iter__` (lines 135-143): for each
field in declared order read one length-coded byte string, look its type
code up in `FIELD_MAPPING`, raise
`RuntimeError('{0} is not supported'.format(f.type))` if absent, else store
the converted value under the field's name.  The Python dict is modelled as
the association list in insertion order. -/
def decodeRowMapGo (fields : List FieldDesc) (rpacket : List Nat) (pos : Nat)
    (row : List (List Nat × Value)) : Except PyErr (List (List Nat × Value)) :=
  match fields with
  | [] => .ok row
  | f :: rest =>
    match readLcbytes rpacket pos with
    | .error e => .error e
    | .ok (col, pos') =>
      match FIELD_MAPPING f.type with
      | none => .error (.runtimeError f.type)
      | some cvt => decodeRowMapGo rest rpacket pos' (row ++ [(f.name, applyConv cvt col)])

/-- Decode one row packet into the mapping view. -/
def decodeRowMap (fields : List FieldDesc) (rpacket : List Nat) :
    Except PyErr (List (List Nat × Value)) :=
  decodeRowMapGo fields rpacket 0 []

/-- The per-row loop of `Resultset.tuples` (lines 147-156): identical
except the values are accumulated positionally. -/
def decodeRowTupleGo (fields : List FieldDesc) (rpacket : List Nat) (pos : Nat)
    (buf : List Value) : Except PyErr (List Value) :=
  match fields with
  | [] => .ok buf
  | f :: rest =>
    match readLcbytes rpacket pos with
    | .error e => .error e
    | .ok (col, pos') =>
      match FIELD_MAPPING f.type with
      | none => .error (.runtimeError f.type)
      | some cvt => decodeRowTupleGo rest rpacket pos' (buf ++ [applyConv cvt col])

/-- Decode one row packet into the positional view. -/
def decodeRowTuple (fields : List FieldDesc) (rpacket : List Nat) :
    Except PyErr (List Value) :=
  decodeRowTupleGo fields rpacket 0 []

/-- `self.reply[self.nfields+2:-1]`: the row packets of a Resultset. -/
def rowPackets (reply : List (List Nat)) (nfields : Nat) : List (List Nat) :=
  ((reply.drop (nfields + 2)).dropLast)

lemma decodeRowMapGo_err (rpacket : List Nat) (f : FieldDesc)
    (hmap : FIELD_MAPPING f.type = none) :
    ∀ fields : List FieldDesc, f ∈ fields →
      ∀ pos row, ∃ e, decodeRowMapGo fields rpacket pos row = .error e := by
  intro fields
  induction fields with
  | nil => intro hf; cases hf
  | cons g rest ih =>
    intro hf pos row
    unfold decodeRowMapGo
    cases hr : readLcbytes rpacket pos with
    | error e => exact ⟨e, rfl⟩
    | ok cp =>
      obtain ⟨col, posn⟩ := cp
      rcases List.mem_cons.mp hf with heq | hmem
      · subst heq
        rw [hmap]
        exact ⟨.runtimeError f.type, rfl⟩
      · cases hg : FIELD_MAPPING g.type with
        | none => exact ⟨.runtimeError g.type, rfl⟩
        | some cvt => exact ih hmem _ _

lemma decodeRowTupleGo_err (rpacket : List Nat) (f : FieldDesc)
    (hmap : FIELD_MAPPING f.type = none) :
    ∀ fields : List FieldDesc, f ∈ fields →
      ∀ pos buf, ∃ e, decodeRowTupleGo fields rpacket pos buf = .error e := by
  intro fields
  induction fields with
  | nil => intro hf; cases hf
  | cons g rest ih =>
    intro hf pos buf
    unfold decodeRowTupleGo
    cases hr : readLcbytes rpacket pos with
    | error e => exact ⟨e, rfl⟩
    | ok cp =>
      obtain ⟨col, posn⟩ := cp
      rcases List.mem_cons.mp hf with heq | hmem
      · subst heq
        rw [hmap]
        exact ⟨.runtimeError f.type, rfl⟩
      · cases hg : FIELD_MAPPING g.type with
        | none => exact ⟨.runtimeError g.type, rfl⟩
        | some cvt => exact ih hmem _ _

/-- C9: whenever a field's type code is outside `FIELD_MAPPING`, decoding
any row packet of the resultset fails with an error — in both the mapping
view (`__iter__`) and the positional view (`tuples`) — and never silently
passes raw bytes through as the column value. -/
theorem unknown_type_code_row_decode_fails
    (reply : List (List Nat)) (nfields : Nat) (fields : List FieldDesc)
    (f : FieldDesc) (rpacket : List Nat)
    (hf : f ∈ fields) (hmap : FIELD_MAPPING f.type = none)
    (hrow : rpacket ∈ rowPackets reply nfields) :
    (∃ e, decodeRowMap fields rpacket = .error e) ∧
    (∃ e, decodeRowTuple fields rpacket = .error e) :=
  ⟨decodeRowMapGo_err rpacket f hmap fields hf 0 [],
   decodeRowTupleGo_err rpacket f hmap fields hf 0 []⟩

/-- A concrete field descriptor with the unsupported type code 0x40. -/
def sampleBadField : FieldDesc :=
  ⟨[100, 101, 102], [116, 101, 115, 116], [116], [116], [105, 100], [105, 100],
   33, 11, 0x40, 0, 0, none⟩

/-- C9 witness: a single-column resultset whose column has type code 0x40
and one 1-byte row. -/
theorem unknown_type_code_row_decode_fails_witness :
    (sampleBadField ∈ [sampleBadField] ∧ FIELD_MAPPING sampleBadField.type = none ∧
     [1, 65] ∈ rowPackets [[1], [250], [254], [1, 65], [254]] 1) ∧
    (∃ e, decodeRowMap [sampleBadField] [1, 65] = .error e) ∧
    (∃ e, decodeRowTuple [sampleBadField] [1, 65] = .error e) :=
  ⟨⟨by decide, by decide, by decide⟩,
   unknown_type_code_row_decode_fails [[1], [250], [254], [1, 65], [254]] 1
     [sampleBadField] sampleBadField [1, 65] (by decide) (by decide) (by decide)⟩

/-!
## Capabilities round-trip (C10)

The seventeen masks tested by `Capabilities.__init__` and set by
`Capabilities.to_int` are bits 0-13, 15, 16 and 17; their union is
245759.
-/

lemma andPowCases (x k : Nat) : x &&& 2 ^ k = 0 ∨ x &&& 2 ^ k = 2 ^ k := by
  rw [Nat.and_two_pow]
  cases x.testBit k <;> simp

lemma andMaskCases (x m k : Nat) (hk : 2 ^ k = m) : x &&& m = 0 ∨ x &&& m = m :=
  hk ▸ andPowCases x k

lemma orStep (x num m : Nat) (h : x &&& m = 0 ∨ x &&& m = m) :
    (if x &&& m != 0 then num ||| m else num) = num ||| (x &&& m) := by
  rcases h with h | h
  · simp [h]
  · rw [h]
    by_cases hm : m = 0
    · subst hm; simp
    · simp [hm]

lemma orStepSubset (b : Bool) (x m M : Nat) (h : m ||| M = M) :
    (if b then x ||| m else x) ||| M = x ||| M := by
  cases b
  · simp
  · simp only [if_pos, Nat.or_assoc, h]

lemma andOrLeft (a b c : Nat) : a &&& b ||| a &&& c = a &&& (b ||| c) := by
  apply Nat.eq_of_testBit_eq
  intro i
  simp [Nat.testBit_lor, Nat.testBit_land, Bool.and_or_distrib_left]

set_option maxHeartbeats 3200000 in
/-- C10: every integer whose set bits lie within the seventeen capability
masks (bits 0-13, 15, 16, 17, union 245759) survives the
`Capabilities.__init__` / `to_int` round trip, and `to_int` never sets a
bit outside those masks (its value ORed with the union is the union). -/
theorem capabilities_to_int_ofNum_roundtrip :
    (∀ n : Nat, n &&& 245759 = n → Capabilities.to_int (Capabilities.ofNum n) = n) ∧
    (∀ c : Capabilities, Capabilities.to_int c ||| 245759 = 245759) := by
  constructor
  · intro n hn
    dsimp only [Capabilities.to_int, Capabilities.ofNum]
    rw [orStep n _ 1 (andMaskCases n 1 0 (by norm_num)),
        orStep n _ 2 (andMaskCases n 2 1 (by norm_num)),
        orStep n _ 4 (andMaskCases n 4 2 (by norm_num)),
        orStep n _ 8 (andMaskCases n 8 3 (by norm_num)),
        orStep n _ 16 (andMaskCases n 16 4 (by norm_num)),
        orStep n _ 32 (andMaskCases n 32 5 (by norm_num)),
        orStep n _ 64 (andMaskCases n 64 6 (by norm_num)),
        orStep n _ 128 (andMaskCases n 128 7 (by norm_num)),
        orStep n _ 256 (andMaskCases n 256 8 (by norm_num)),
        orStep n _ 512 (andMaskCases n 512 9 (by norm_num)),
        orStep n _ 1024 (andMaskCases n 1024 10 (by norm_num)),
        orStep n _ 2048 (andMaskCases n 2048 11 (by norm_num)),
        orStep n _ 4096 (andMaskCases n 4096 12 (by norm_num)),
        orStep n _ 8192 (andMaskCases n 8192 13 (by norm_num)),
        orStep n _ 32768 (andMaskCases n 32768 15 (by norm_num)),
        orStep n _ 65536 (andMaskCases n 65536 16 (by norm_num)),
        orStep n _ 131072 (andMaskCases n 131072 17 (by norm_num)),
        Nat.zero_or]
    rw [andOrLeft, andOrLeft, andOrLeft, andOrLeft, andOrLeft, andOrLeft,
        andOrLeft, andOrLeft, andOrLeft, andOrLeft, andOrLeft, andOrLeft,
        andOrLeft, andOrLeft, andOrLeft, andOrLeft]
    rw [show (1 ||| 2 ||| 4 ||| 8 ||| 16 ||| 32 ||| 64 ||| 128 ||| 256 ||| 512 |||
             1024 ||| 2048 ||| 4096 ||| 8192 ||| 32768 ||| 65536 ||| 131072 : Nat)
          = 245759 from by decide]
    exact hn
  · intro c
    dsimp only [Capabilities.to_int]
    rw [orStepSubset c.multi_results _ 131072 245759 (by decide),
        orStepSubset c.multi_statements _ 65536 245759 (by decide),
        orStepSubset c.secure_connection _ 32768 245759 (by decide),
        orStepSubset c.transactions _ 8192 245759 (by decide),
        orStepSubset c.ignore_sigpipe _ 4096 245759 (by decide),
        orStepSubset c.ssl _ 2048 245759 (by decide),
        orStepSubset c.interactive _ 1024 245759 (by decide),
        orStepSubset c.protocol_41 _ 512 245759 (by decide),
        orStepSubset c.ignore_space _ 256 245759 (by decide),
        orStepSubset c.local_files _ 128 245759 (by decide),
        orStepSubset c.odbc _ 64 245759 (by decide),
        orStepSubset c.compress _ 32 245759 (by decide),
        orStepSubset c.no_schema _ 16 245759 (by decide),
        orStepSubset c.connect_with_db _ 8 245759 (by decide),
        orStepSubset c.long_flag _ 4 245759 (by decide),
        orStepSubset c.found_rows _ 2 245759 (by decide),
        orStepSubset c.long_password _ 1 245759 (by decide)]
    decide

/-- C10 witness: the round trip applied at 245759 itself (every flag set)
and the subset property at the all-false capability set. -/
theorem capabilities_to_int_ofNum_roundtrip_witness :
    (245759 &&& 245759 = 245759 ∧
     Capabilities.to_int (Capabilities.ofNum 245759) = 245759) ∧
    Capabilities.to_int (Capabilities.ofNum 0) ||| 245759 = 245759 :=
  ⟨⟨by decide, capabilities_to_int_ofNum_roundtrip.1 245759 (by decide)⟩,
   capabilities_to_int_ofNum_roundtrip.2 (Capabilities.ofNum 0)⟩
